import Mathlib

/-!
Shallow embedding of the on-board trip computer sketch `komp_poklad.ino`.

Float arithmetic of the source is modelled as exact rational arithmetic (ℚ),
following the spec's data model which describes the snapshot as three
real-valued copies.  The three pulse counters are `volatile unsigned short int`
on the target board (Pro Micro, ATmega32U4), hence 16 bits wide: increments
are modelled modulo 65536.  Display output is modelled by the final content
of the relevant LCD line (a value together with its unit).
-/

namespace OnBoard

/-- Source line 49: `char fuelMax = 21;` — tank capacity in litres. -/
def fuelMax : ℤ := 21

/-- Source line 50: `char fuelAlarm = 4;` — low-fuel alarm threshold in litres. -/
def fuelAlarm : ℤ := 4

/-- Source line 52: `unsigned short int distance = 500;` — distance threshold in
meters triggering the fuel-consumption computation in `loop()`. -/
def distance : ℚ := 500

/-- Source line 53: `float wheelCircum = 1.915;` — wheel circumference in meters. -/
def wheelCircum : ℚ := 1915 / 1000

/-- Source line 70: `unsigned long interval = 5000;` — the configured
accumulation-window length in milliseconds. -/
def interval : ℕ := 5000

/-- Unit of the consumption figure finally left on LCD row 2 by `consumption`. -/
inductive ConsUnit
  | L100km
  | Lmin
deriving DecidableEq

/-- Embedding of `consumption(copyFlow1, copyFlow2, copyWheel)` (source lines
288–316), returning the value and unit finally displayed on LCD row 2.  The
source first prints the L/100km branch (the value when positive, else `0.00`)
and then, when `copyWheel <= 0` after the multiplication by `wheelCircum`,
overwrites that line with the stationary branch, whose value is
`(60 / interval) * diff` — an integer division of 60 by the unsigned long 5000,
modelled as ℕ division.  Divisions of the source are ℚ divisions (ℚ makes
`x / 0 = 0`; the separate `consumptionDivisors` records the divisors actually
used so that division-by-zero claims stay observable). -/
def consumption (copyFlow1 copyFlow2 copyWheel : ℚ) : ℚ × ConsUnit :=
  let f1 := copyFlow1 / 450
  let f2 := copyFlow2 / 450
  let diff := 100 * |f1 - f2|
  let w := copyWheel * wheelCircum
  let coeff := 100000 / w
  let cons := (diff / w) * coeff
  if w ≤ 0 then (((60 / interval : ℕ) : ℚ) * diff, ConsUnit.Lmin)
  else if 0 < cons then (cons, ConsUnit.L100km)
  else (0, ConsUnit.L100km)

/-- The divisors used by `consumption`, in source order: `copyFlow1 /= 450`,
`copyFlow2 /= 450`, `coeff = 100000 / copyWheel`, `diff / copyWheel` (both after
`copyWheel *= wheelCircum`), and `60 / interval`. -/
def consumptionDivisors (copyWheel : ℚ) : List ℚ :=
  [450, 450, copyWheel * wheelCircum, copyWheel * wheelCircum, (interval : ℚ)]

/-- A division by zero occurs in `consumption` iff some divisor it uses is zero. -/
def consumptionDividesByZero (copyWheel : ℚ) : Prop :=
  (0 : ℚ) ∈ consumptionDivisors copyWheel

instance (copyWheel : ℚ) : Decidable (consumptionDividesByZero copyWheel) := by
  unfold consumptionDividesByZero
  infer_instance

/-- Definition following the spec's words (§4.4, step 4), for comparison with
the source's `consumption`: `liters = pulses / pulsesPerLiter` (450),
`fuelDelta = |litersIn − litersOut|`, `distanceMeters = distance * wheelCircum`,
`consumption = (fuelDelta / distanceMeters) * 100000` in L/100km. -/
def spec_consumption_L100km (pulsesIn pulsesOut distPulses : ℚ) : ℚ :=
  |pulsesIn / 450 - pulsesOut / 450| / (distPulses * wheelCircum) * 100000

/-- The configured accumulation-window duration in seconds: `interval` is 5000
milliseconds, i.e. 5 seconds. -/
def windowSeconds : ℚ := (interval : ℚ) / 1000

/-- Definition following the spec's words (§4.4, step 5), for comparison with
the source's stationary branch: report `fuelDelta * (60 / windowSeconds)` as
liters per minute. -/
def spec_stationary_Lmin (fuelDelta : ℚ) : ℚ :=
  fuelDelta * (60 / windowSeconds)

/-- Embedding of `rpm()` (source lines 276–284): `int duration = pulseIn(...);
int RPM = 60000 / duration;`.  The source performs the integer division with no
guard on `duration`; a zero reading (the `pulseIn` timeout value) makes the
division undefined behaviour, modelled as `none`. -/
def rpm (duration : ℤ) : Option ℤ :=
  if duration = 0 then none else some (60000 / duration)

/-- Low-fuel threshold of `fuel()` (source line 213): `100 * fuelAlarm/fuelMax`
in C integer arithmetic, i.e. 400 / 21 = 19. -/
def lowFuelThreshold : ℤ := 100 * fuelAlarm / fuelMax

/-- Embedding of `buzz(char &buzzDIS)` (source lines 190–201): sounds the
two-beep pattern iff `buzzDIS` is clear, then sets `buzzDIS = 1` in all cases.
Returns (new `buzzDIS`, whether the audible pattern fired). -/
def buzz (buzzDIS : Bool) : Bool × Bool :=
  (true, !buzzDIS)

/-- Embedding of the alarm-policy part of `fuel()` (source lines 205–215): one
evaluation at fuel percentage `fuelPerc` from latch state `buzzDIS`
(`false` = armed, `true` = disarmed).  Returns (new `buzzDIS`, fired). -/
def fuelStep (buzzDIS : Bool) (fuelPerc : ℤ) : Bool × Bool :=
  if fuelPerc ≥ 80 then (false, false)
  else if fuelPerc ≤ lowFuelThreshold then buzz buzzDIS
  else (buzzDIS, false)

/-- Run the alarm policy over a list of fuel-percentage evaluations, returning
the final latch state and the list of fired flags, one per evaluation. -/
def fuelRun (buzzDIS : Bool) (percs : List ℤ) : Bool × List Bool :=
  match percs with
  | [] => (buzzDIS, [])
  | p :: ps =>
    let s := fuelStep buzzDIS p
    let r := fuelRun s.1 ps
    (r.1, s.2 :: r.2)

/-- The sequence of latch states after each evaluation of the alarm policy. -/
def fuelStates (buzzDIS : Bool) (percs : List ℤ) : List Bool :=
  match percs with
  | [] => []
  | p :: ps =>
    let d := (fuelStep buzzDIS p).1
    d :: fuelStates d ps

/-- Events of the interrupt/main-loop interleaving model: `flow1`, `flow2` and
`wheel` are executions of the interrupt handlers `isrFlow1`, `isrFlow2`,
`isrWheel` (source lines 366–379), each incrementing its 16-bit counter;
`snap` is the snapshot-and-reset critical section of `loop()` (source lines
352–359), modelled as one atomic action because the source brackets it with
`noInterrupts()` / `interrupts()`, so no handler can run inside it. -/
inductive Ev
  | flow1
  | flow2
  | wheel
  | snap
deriving DecidableEq

/-- Shared state of the pulse-counting pipeline: the three volatile
`unsigned short int` counters (values kept below 2^16) and the list of
snapshots taken so far, most recent first. -/
structure St where
  countFlow1 : ℕ
  countFlow2 : ℕ
  countWheel : ℕ
  snaps : List (ℕ × ℕ × ℕ)
deriving DecidableEq

/-- One step of the interleaving: a pulse event executes `count...++` on a
16-bit counter; a `snap` event copies the three counters into a snapshot and
zeroes them (source lines 352–359). -/
def step (s : St) : Ev → St
  | Ev.flow1 => { s with countFlow1 := (s.countFlow1 + 1) % 65536 }
  | Ev.flow2 => { s with countFlow2 := (s.countFlow2 + 1) % 65536 }
  | Ev.wheel => { s with countWheel := (s.countWheel + 1) % 65536 }
  | Ev.snap =>
      { countFlow1 := 0, countFlow2 := 0, countWheel := 0,
        snaps := (s.countFlow1, s.countFlow2, s.countWheel) :: s.snaps }

/-- Initial state: all counters zero (source lines 63–65), no snapshot yet. -/
def init : St := { countFlow1 := 0, countFlow2 := 0, countWheel := 0, snaps := [] }

/-- Run a trace of events from the initial state. -/
def run (t : List Ev) : St := t.foldl step init

/-- Number of occurrences of the event `e` in a trace: the pulses generated on
one channel when `e` is a pulse event. -/
def gen (e : Ev) : List Ev → ℕ
  | [] => 0
  | x :: t => (if x = e then 1 else 0) + gen e t

/-- Total flow-1 pulses observed across all snapshots taken so far. -/
def obsFlow1 (s : St) : ℕ := (s.snaps.map fun q => q.1).sum

/-- Total flow-2 pulses observed across all snapshots taken so far. -/
def obsFlow2 (s : St) : ℕ := (s.snaps.map fun q => q.2.1).sum

/-- Total wheel pulses observed across all snapshots taken so far. -/
def obsWheel (s : St) : ℕ := (s.snaps.map fun q => q.2.2).sum

/-- A trace made of accumulation windows: each window is a burst of pulse
events followed by one snapshot-and-reset. -/
def trace (ws : List (List Ev)) : List Ev := (ws.map fun w => w ++ [Ev.snap]).flatten

/-- Per-channel pulse totals of one accumulation window. -/
def windowCounts (w : List Ev) : ℕ × ℕ × ℕ :=
  (gen Ev.flow1 w, gen Ev.flow2 w, gen Ev.wheel w)

/-! Helper lemmas about the interleaving model. -/

theorem gen_append (e : Ev) (l1 l2 : List Ev) :
    gen e (l1 ++ l2) = gen e l1 + gen e l2 := by
  induction l1 with
  | nil => simp [gen]
  | cons x t ih => simp [gen, ih]; omega

theorem gen_replicate (e : Ev) (n : ℕ) :
    gen e (List.replicate n e) = n := by
  induction n with
  | zero => simp [gen]
  | succ n ih => simp [List.replicate_succ, gen, ih]; omega

/-- Running a snapshot-free burst of pulses whose per-channel totals keep every
counter at or below 65535 adds the totals to the counters, with no wrap and no
change to the snapshots. -/
theorem foldl_window (w : List Ev) (hns : Ev.snap ∉ w) (s : St)
    (h1 : s.countFlow1 + gen Ev.flow1 w ≤ 65535)
    (h2 : s.countFlow2 + gen Ev.flow2 w ≤ 65535)
    (h3 : s.countWheel + gen Ev.wheel w ≤ 65535) :
    w.foldl step s =
      { countFlow1 := s.countFlow1 + gen Ev.flow1 w,
        countFlow2 := s.countFlow2 + gen Ev.flow2 w,
        countWheel := s.countWheel + gen Ev.wheel w,
        snaps := s.snaps } := by
  induction w generalizing s with
  | nil => simp [gen]
  | cons x t ih =>
    have hxs : x ≠ Ev.snap := by
      intro h; exact hns (h ▸ List.mem_cons_self x t)
    have hnt : Ev.snap ∉ t := fun h => hns (List.mem_cons_of_mem x h)
    cases x with
    | flow1 =>
      simp only [gen, reduceCtorEq, if_true, if_false, reduceIte] at h1 h2 h3 ⊢
      have hmod : (s.countFlow1 + 1) % 65536 = s.countFlow1 + 1 :=
        Nat.mod_eq_of_lt (by omega)
      rw [List.foldl_cons]
      rw [show step s Ev.flow1 = { s with countFlow1 := s.countFlow1 + 1 } by
        simp [step, hmod]]
      rw [ih hnt _ (by simp; omega) (by simp; omega) (by simp; omega)]
      simp [St.mk.injEq]
      omega
    | flow2 =>
      simp only [gen, reduceCtorEq, if_true, if_false, reduceIte] at h1 h2 h3 ⊢
      have hmod : (s.countFlow2 + 1) % 65536 = s.countFlow2 + 1 :=
        Nat.mod_eq_of_lt (by omega)
      rw [List.foldl_cons]
      rw [show step s Ev.flow2 = { s with countFlow2 := s.countFlow2 + 1 } by
        simp [step, hmod]]
      rw [ih hnt _ (by simp; omega) (by simp; omega) (by simp; omega)]
      simp [St.mk.injEq]
      omega
    | wheel =>
      simp only [gen, reduceCtorEq, if_true, if_false, reduceIte] at h1 h2 h3 ⊢
      have hmod : (s.countWheel + 1) % 65536 = s.countWheel + 1 :=
        Nat.mod_eq_of_lt (by omega)
      rw [List.foldl_cons]
      rw [show step s Ev.wheel = { s with countWheel := s.countWheel + 1 } by
        simp [step, hmod]]
      rw [ih hnt _ (by simp; omega) (by simp; omega) (by simp; omega)]
      simp [St.mk.injEq]
      omega
    | snap => exact absurd rfl hxs

/-- Running a windowed trace from zero counters flushes every window into one
snapshot, leaving the counters at zero. -/
theorem foldl_trace (ws : List (List Ev))
    (h : ∀ w ∈ ws, Ev.snap ∉ w ∧ gen Ev.flow1 w ≤ 65535
      ∧ gen Ev.flow2 w ≤ 65535 ∧ gen Ev.wheel w ≤ 65535)
    (s : St) (h1 : s.countFlow1 = 0) (h2 : s.countFlow2 = 0) (h3 : s.countWheel = 0) :
    (trace ws).foldl step s =
      { countFlow1 := 0, countFlow2 := 0, countWheel := 0,
        snaps := (ws.map windowCounts).reverse ++ s.snaps } := by
  induction ws generalizing s with
  | nil =>
    simp only [trace, List.map_nil, List.flatten_nil, List.foldl_nil,
      List.reverse_nil, List.nil_append]
    cases s
    simp_all
  | cons w ws ih =>
    obtain ⟨hw, hb1, hb2, hb3⟩ := h w (List.mem_cons_self w ws)
    have hrest := fun w' hw' => h w' (List.mem_cons_of_mem w hw')
    have htr : trace (w :: ws) = (w ++ [Ev.snap]) ++ trace ws := by
      simp [trace]
    rw [htr, List.foldl_append, List.foldl_append]
    rw [foldl_window w hw s (by omega) (by omega) (by omega)]
    rw [show ([Ev.snap]).foldl step
        { countFlow1 := s.countFlow1 + gen Ev.flow1 w,
          countFlow2 := s.countFlow2 + gen Ev.flow2 w,
          countWheel := s.countWheel + gen Ev.wheel w,
          snaps := s.snaps } =
      { countFlow1 := 0, countFlow2 := 0, countWheel := 0,
        snaps := (s.countFlow1 + gen Ev.flow1 w, s.countFlow2 + gen Ev.flow2 w,
          s.countWheel + gen Ev.wheel w) :: s.snaps } by simp [step]]
    rw [ih hrest _ rfl rfl rfl]
    simp [windowCounts, h1, h2, h3]

theorem gen_trace (e : Ev) (he : e ≠ Ev.snap) (ws : List (List Ev)) :
    gen e (trace ws) = (ws.map fun w => gen e w).sum := by
  induction ws with
  | nil => simp [trace, gen]
  | cons w ws ih =>
    have htr : trace (w :: ws) = (w ++ [Ev.snap]) ++ trace ws := by
      simp [trace]
    rw [htr, gen_append, gen_append, ih]
    have : gen e [Ev.snap] = 0 := by
      simp [gen]
      intro hc
      exact absurd hc.symm he
    rw [this]
    simp

/-- Running a burst of flow-1 pulses increments `countFlow1` modulo 2^16: the
16-bit counter wraps when more than 65535 pulses accumulate without a reset. -/
theorem foldl_replicate_flow1 (n : ℕ) (s : St) (h : s.countFlow1 < 65536) :
    (List.replicate n Ev.flow1).foldl step s =
      { s with countFlow1 := (s.countFlow1 + n) % 65536 } := by
  induction n generalizing s with
  | zero =>
    simp [Nat.mod_eq_of_lt h]
  | succ n ih =>
    rw [List.replicate_succ, List.foldl_cons]
    rw [show step s Ev.flow1 = { s with countFlow1 := (s.countFlow1 + 1) % 65536 } from rfl]
    rw [ih _ (by simp [Nat.mod_lt])]
    simp [St.mk.injEq, Nat.mod_add_mod]
    congr 1
    omega

/-! Claim theorems. -/

/-- C1: at the spec's own example input (flow-in 900 pulses, flow-out 450
pulses, distance 261 pulses), the source's `consumption` reports
400000000000 / 9992601369 ≈ 40.03, below 41, while the spec formula
`(fuelDelta / distanceMeters) * 100000` gives 20000000 / 99963 ≈ 200.07,
above 200: the code multiplies the fuel delta by 100 and divides by the
distance twice (once in `diff / copyWheel` and once inside
`coeff = 100000 / copyWheel`), contradicting its own `L/100 km` comments. -/
theorem consumption_example_diverges_from_spec_formula :
    (consumption 900 450 261).1 = 400000000000 / 9992601369
    ∧ spec_consumption_L100km 900 450 261 = 20000000 / 99963
    ∧ (consumption 900 450 261).1 < 41
    ∧ 200 < spec_consumption_L100km 900 450 261 := by
  refine ⟨?_, ?_, ?_, ?_⟩
  · norm_num [consumption, wheelCircum, interval]
  · norm_num [spec_consumption_L100km, wheelCircum]
  · norm_num [consumption, wheelCircum, interval]
  · norm_num [spec_consumption_L100km, wheelCircum]

/-- C2 (counterexample): with the 16-bit counters of the source, a window of
65536 flow-1 pulses followed by one snapshot observes 0 pulses while 65536
were generated — the counter wraps, so the claim as stated (conservation for
every pulse sequence) fails. -/
theorem pulse_conservation_fails_at_counter_wrap :
    gen Ev.flow1 (List.replicate 65536 Ev.flow1 ++ [Ev.snap]) = 65536
    ∧ obsFlow1 (run (List.replicate 65536 Ev.flow1 ++ [Ev.snap])) = 0
    ∧ obsFlow1 (run (List.replicate 65536 Ev.flow1 ++ [Ev.snap]))
      ≠ gen Ev.flow1 (List.replicate 65536 Ev.flow1 ++ [Ev.snap]) := by
  have hg : gen Ev.flow1 (List.replicate 65536 Ev.flow1 ++ [Ev.snap]) = 65536 := by
    rw [gen_append, gen_replicate]
    simp [gen]
  have hrun : run (List.replicate 65536 Ev.flow1 ++ [Ev.snap]) =
      { countFlow1 := 0, countFlow2 := 0, countWheel := 0, snaps := [(0, 0, 0)] } := by
    rw [run, List.foldl_append]
    rw [foldl_replicate_flow1 65536 init (by simp [init])]
    simp [init, step]
  refine ⟨hg, ?_, ?_⟩
  · rw [hrun]; simp [obsFlow1]
  · rw [hrun, hg]; simp [obsFlow1]

/-- C2 (amended): for every sequence of accumulation windows — interrupt pulse
bursts each followed by one snapshot-and-reset — in which each window puts at
most 65535 pulses on each 16-bit counter, the total number of pulses observed
across all snapshots equals the total number generated on each channel, and
all counters are back at zero afterwards: no pulse is lost and none is
double-counted across a snapshot boundary. -/
theorem pulse_conservation_of_bounded_windows (ws : List (List Ev))
    (h : ∀ w ∈ ws, Ev.snap ∉ w ∧ gen Ev.flow1 w ≤ 65535
      ∧ gen Ev.flow2 w ≤ 65535 ∧ gen Ev.wheel w ≤ 65535) :
    obsFlow1 (run (trace ws)) = gen Ev.flow1 (trace ws)
    ∧ obsFlow2 (run (trace ws)) = gen Ev.flow2 (trace ws)
    ∧ obsWheel (run (trace ws)) = gen Ev.wheel (trace ws)
    ∧ (run (trace ws)).countFlow1 = 0
    ∧ (run (trace ws)).countFlow2 = 0
    ∧ (run (trace ws)).countWheel = 0 := by
  have hr : run (trace ws) =
      { countFlow1 := 0, countFlow2 := 0, countWheel := 0,
        snaps := (ws.map windowCounts).reverse ++ [] } :=
    foldl_trace ws h init rfl rfl rfl
  rw [hr]
  refine ⟨?_, ?_, ?_, rfl, rfl, rfl⟩
  · rw [gen_trace Ev.flow1 (by simp) ws]
    simp [obsFlow1, windowCounts, List.map_reverse, List.sum_reverse, Function.comp_def]
  · rw [gen_trace Ev.flow2 (by simp) ws]
    simp [obsFlow2, windowCounts, List.map_reverse, List.sum_reverse, Function.comp_def]
  · rw [gen_trace Ev.wheel (by simp) ws]
    simp [obsWheel, windowCounts, List.map_reverse, List.sum_reverse, Function.comp_def]

/-- C2 (witness): a concrete two-window run — 2 flow-1 and 1 flow-2 pulse,
then a snapshot, then 1 wheel and 1 flow-1 pulse, then a snapshot — satisfies
the bound hypothesis and observes all 3 generated flow-1 pulses. -/
theorem pulse_conservation_of_bounded_windows_witness :
    obsFlow1 (run (trace [[Ev.flow1, Ev.flow1, Ev.flow2], [Ev.wheel, Ev.flow1]]))
      = gen Ev.flow1 (trace [[Ev.flow1, Ev.flow1, Ev.flow2], [Ev.wheel, Ev.flow1]])
    ∧ gen Ev.flow1 (trace [[Ev.flow1, Ev.flow1, Ev.flow2], [Ev.wheel, Ev.flow1]]) = 3 :=
  ⟨(pulse_conservation_of_bounded_windows
      [[Ev.flow1, Ev.flow1, Ev.flow2], [Ev.wheel, Ev.flow1]] (by decide)).1,
    by decide⟩

/-- C3 (counterexample): at the all-zero snapshot the distance in meters is
zero and `consumption` does divide by zero — `coeff = 100000 / copyWheel` and
`diff / copyWheel` are evaluated before the stationary branch is reached — so
the claim that no division by zero occurs anywhere in the computation is
false. -/
theorem stationary_division_by_zero_occurs :
    (0 : ℚ) * wheelCircum = 0 ∧ consumptionDividesByZero 0 := by
  constructor
  · exact zero_mul _
  · unfold consumptionDividesByZero consumptionDivisors
    simp

/-- C3 (amended): for every snapshot whose distance in meters is zero, the
unit of the figure finally displayed is liters per minute, never liters per
100 km — but the computation does perform divisions with a zero divisor on
the way there. -/
theorem stationary_unit_is_Lmin_but_divides_by_zero
    (copyFlow1 copyFlow2 copyWheel : ℚ) (h : copyWheel * wheelCircum = 0) :
    (consumption copyFlow1 copyFlow2 copyWheel).2 = ConsUnit.Lmin
    ∧ consumptionDividesByZero copyWheel := by
  constructor
  · simp only [consumption]
    rw [if_pos (le_of_eq h)]
  · unfold consumptionDividesByZero consumptionDivisors
    simp [h]

/-- C3 (witness): the amended statement holds at the all-zero snapshot. -/
theorem stationary_unit_is_Lmin_but_divides_by_zero_witness :
    (consumption 0 0 0).2 = ConsUnit.Lmin ∧ consumptionDividesByZero 0 :=
  stationary_unit_is_Lmin_but_divides_by_zero 0 0 0 (zero_mul _)

/-- C4: in the stationary branch the source computes `(60 / interval) * diff`
with `interval` the unsigned long 5000, so the integer division `60 / 5000`
is 0 and the branch always reports 0, here shown at a snapshot with a fuel
delta of 1 liter (900 vs 450 pulses, no distance pulse); the spec instead
prescribes `fuelDelta * (60 / windowSeconds)` = 12 liters per minute for the
5-second window. -/
theorem stationary_report_is_always_zero :
    consumption 900 450 0 = (0, ConsUnit.Lmin)
    ∧ (60 / interval : ℕ) = 0
    ∧ spec_stationary_Lmin 1 = 12 := by
  refine ⟨?_, by decide, ?_⟩
  · norm_num [consumption, wheelCircum, interval]
  · norm_num [spec_stationary_Lmin, windowSeconds, interval]

/-- C5: when the two flow totals are equal the fuel delta is zero and the
value reported by `consumption` is 0, whatever the distance total. -/
theorem zero_fuelDelta_reports_zero (copyFlow1 copyFlow2 copyWheel : ℚ)
    (h : copyFlow1 = copyFlow2) :
    (consumption copyFlow1 copyFlow2 copyWheel).1 = 0 := by
  subst h
  simp only [consumption]
  split_ifs <;> simp

/-- C5 (witness): equal flow totals of 450 pulses with 500 distance pulses
report the value 0. -/
theorem zero_fuelDelta_reports_zero_witness :
    (450 : ℚ) = 450 ∧ (consumption 450 450 500).1 = 0 :=
  ⟨rfl, zero_fuelDelta_reports_zero 450 450 500 rfl⟩

/-- C6: on the evaluation sequence 90%, 50%, 3%, 50%, 90% from the armed
state (`buzzDIS = false`), the alarm fires exactly at the 3% sample, the
latch is disarmed from the 3% sample until the final 90% sample re-arms it
(the only disarmed-to-armed transition), and no alarm fires at the second
50% sample; moreover no evaluation fires from the disarmed state, and any
firing evaluation happens armed, at or below the low threshold, and leaves
the latch disarmed — so the alarm fires exactly once per downward crossing. -/
theorem alarm_fires_once_per_crossing :
    fuelRun false [90, 50, 3, 50, 90] = (false, [false, false, true, false, false])
    ∧ fuelStates false [90, 50, 3, 50, 90] = [false, false, true, true, false]
    ∧ (∀ p : ℤ, (fuelStep true p).2 = false)
    ∧ (∀ (d : Bool) (p : ℤ), (fuelStep d p).2 = true →
        d = false ∧ p ≤ lowFuelThreshold ∧ (fuelStep d p).1 = true) := by
  refine ⟨by decide, by decide, ?_, ?_⟩
  · intro p
    unfold fuelStep buzz
    split_ifs <;> rfl
  · intro d p hfired
    cases d <;> unfold fuelStep buzz at hfired ⊢ <;> split_ifs at hfired ⊢ <;> simp_all

/-- C6 (witness): the armed evaluation at 3% fires and disarms the latch. -/
theorem alarm_fires_once_per_crossing_witness :
    (fuelStep false 3).2 = true
    ∧ (false = false ∧ (3 : ℤ) ≤ lowFuelThreshold ∧ (fuelStep false 3).1 = true) :=
  ⟨by decide, alarm_fires_once_per_crossing.2.2.2 false 3 (by decide)⟩

/-- C7: a disarmed latch becomes armed after an evaluation exactly when the
fuel percentage is at least 80 — the only re-arming transition of `fuel()`. -/
theorem rearm_only_at_or_above_80 (p : ℤ) :
    (fuelStep true p).1 = false ↔ 80 ≤ p := by
  unfold fuelStep buzz
  split_ifs with h1 h2 <;> simp_all

/-- C7 (witness): the re-arm equivalence at the concrete evaluation 90%. -/
theorem rearm_only_at_or_above_80_witness :
    (fuelStep true 90).1 = false ↔ (80 : ℤ) ≤ 90 :=
  rearm_only_at_or_above_80 90

/-- C8: after any trace followed by one snapshot-and-reset critical section
(executed with the counter-writing interrupts disabled, hence atomic), all
three raw counters read zero and the new snapshot holds exactly the counter
values at entry to the critical section. -/
theorem snapshot_reset_postcondition (t : List Ev) :
    run (t ++ [Ev.snap]) =
      { countFlow1 := 0, countFlow2 := 0, countWheel := 0,
        snaps := ((run t).countFlow1, (run t).countFlow2, (run t).countWheel)
          :: (run t).snaps } := by
  simp [run, List.foldl_append, step]

/-- C8 (witness): one flow-1 pulse then a snapshot leaves zero counters and a
snapshot recording that one pulse. -/
theorem snapshot_reset_postcondition_witness :
    run ([Ev.flow1] ++ [Ev.snap]) =
      { countFlow1 := 0, countFlow2 := 0, countWheel := 0,
        snaps := [(1, 0, 0)] } :=
  (snapshot_reset_postcondition [Ev.flow1]).trans (by decide)

/-- C9: the source computes `RPM = 60000 / duration` with no guard on the
pulse-width reading, so at a zero reading (the `pulseIn` timeout value) the
integer division is undefined behaviour, modelled as `none`; every nonzero
reading yields the divided value. -/
theorem rpm_unguarded_division :
    rpm 0 = none ∧ ∀ duration : ℤ, duration ≠ 0 → rpm duration = some (60000 / duration) := by
  refine ⟨rfl, fun d hd => ?_⟩
  simp [rpm, hd]

/-- C9 (witness): a 20 µs pulse width yields RPM 60000 / 20. -/
theorem rpm_unguarded_division_witness :
    (20 : ℤ) ≠ 0 ∧ rpm 20 = some (60000 / 20) :=
  ⟨by decide, rpm_unguarded_division.2 20 (by decide)⟩

/-- C10: whenever `loop()`'s guard `countWheel * wheelCircum >= distance`
holds (distance threshold 500 m), the wheel count is strictly positive, the
figure computed by `consumption` is in liters per 100 km (the stationary
branch is unreachable from the main loop), and every divisor used in the
computation is strictly positive. -/
theorem loop_guard_positive_distance (copyFlow1 copyFlow2 : ℚ) (countWheel : ℕ)
    (h : distance ≤ (countWheel : ℚ) * wheelCircum) :
    0 < countWheel
    ∧ (consumption copyFlow1 copyFlow2 (countWheel : ℚ)).2 = ConsUnit.L100km
    ∧ ∀ q ∈ consumptionDivisors (countWheel : ℚ), 0 < q := by
  have hw : 0 < (countWheel : ℚ) * wheelCircum := by
    have : (0 : ℚ) < distance := by norm_num [distance]
    linarith
  refine ⟨?_, ?_, ?_⟩
  · rcases Nat.eq_zero_or_pos countWheel with h0 | h0
    · subst h0; norm_num at hw
    · exact h0
  · simp only [consumption]
    rw [if_neg (not_le.mpr hw)]
    split_ifs <;> rfl
  · intro q hq
    simp only [consumptionDivisors, interval, List.mem_cons, List.not_mem_nil, or_false] at hq
    rcases hq with rfl | rfl | rfl | rfl | rfl
    · norm_num
    · norm_num
    · exact hw
    · exact hw
    · norm_num

/-- C10 (witness): 262 wheel pulses satisfy the guard (262 · 1.915 ≥ 500) and
give a strictly positive count and an L/100km figure. -/
theorem loop_guard_positive_distance_witness :
    distance ≤ ((262 : ℕ) : ℚ) * wheelCircum
    ∧ 0 < (262 : ℕ)
    ∧ (consumption 0 0 ((262 : ℕ) : ℚ)).2 = ConsUnit.L100km := by
  have hh : distance ≤ ((262 : ℕ) : ℚ) * wheelCircum := by
    norm_num [distance, wheelCircum]
  exact ⟨hh, (loop_guard_positive_distance 0 0 262 hh).1,
    (loop_guard_positive_distance 0 0 262 hh).2.1⟩

end OnBoard
